import Mathlib

/-!
# TamingTrees — shallow embedding of the shared-world state engine

This file embeds the server-side game logic of the TamingTrees repository
(`src/server/index.ts` and its grid-allocator variant) in Lean 4 and proves
the specification's claims about it.

Conventions of the embedding:
* JavaScript numbers that only ever hold integer values (timestamps, coins,
  seeds, water, experience, health, growth stages, counts) are modelled as `ℤ`;
  world coordinates, which arrive from requests and may be fractional, are
  modelled as `ℚ`.  All arithmetic the server performs on these quantities
  stays exact at the magnitudes involved, so exact arithmetic is faithful.
* `Math.floor` is `Int.floor` (on `ℚ`) — both round toward `-∞`.
* `Date.now()` is passed in as an explicit `now : ℤ` parameter, and
  `Math.random()`-derived values are passed as explicit parameters.
* The `claimedPlots : Set<string>` of `"gx,gz"` keys is modelled as a
  duplicate-free `List (ℕ × ℕ)` of grid coordinates (the string encoding of a
  coordinate pair is injective, so the pair itself serves as the key).
* Handlers are functions from the loaded `GameState` (plus request parameters)
  to the `GameState` they return and persist; validation-failure paths return
  the state unchanged, exactly as the handlers respond with the untouched
  `gameState`.  `NotFound` (HTTP 404) paths are `Option.none`.
-/

namespace TamingTrees

/-- `TreeType` from `shared/types/api.ts`. -/
inductive TreeType where
  | oak | pine | cherry | maple | cedar
deriving DecidableEq, Repr

/-- `BiomeType` from `shared/types/api.ts`. -/
inductive BiomeType where
  | forest | meadow | hills | lake | mountain
deriving DecidableEq, Repr

/-- `AchievementCategory` from `shared/types/api.ts`. -/
inductive AchievementCategory where
  | planting | harvesting | exploration | social | economy | mastery
deriving DecidableEq, Repr

/-- `Achievement` from `shared/types/api.ts`. -/
structure Achievement where
  id : String
  name : String
  description : String
  icon : String
  unlockedAt : ℤ
  category : AchievementCategory
deriving DecidableEq, Repr

/-- A 3-D position `{x, y, z}`. -/
structure Pos where
  x : ℚ
  y : ℚ
  z : ℚ
deriving DecidableEq, Repr

/-- `Tree` from `shared/types/api.ts` (`type` is renamed `ttype`). -/
structure Tree where
  id : String
  ttype : TreeType
  x : ℚ
  y : ℚ
  z : ℚ
  growthStage : ℤ
  plantedAt : ℤ
  lastWatered : ℤ
  health : ℤ
  ownerId : String
deriving DecidableEq, Repr

/-- `LandPlot` from `shared/types/api.ts`. -/
structure LandPlot where
  id : String
  x : ℚ
  z : ℚ
  ownerId : String
  biomeType : BiomeType
  trees : List String
  purchasedAt : ℤ
  price : ℤ
deriving DecidableEq, Repr

/-- `Player` from `shared/types/api.ts`. -/
structure Player where
  id : String
  username : String
  avatar : String
  level : ℤ
  experience : ℤ
  coins : ℤ
  achievements : List Achievement
  landPlots : List String
  position : Pos
  lastActive : ℤ
deriving DecidableEq, Repr

/-- The `environment` record of a `Biome`. -/
structure Environment where
  skyColor : String
  groundColor : String
  fogColor : String
deriving DecidableEq, Repr

/-- `Biome` from `shared/types/api.ts` (`type` is renamed `btype`). -/
structure Biome where
  id : String
  name : String
  btype : BiomeType
  maxPlayers : ℤ
  landPlots : List LandPlot
  players : List Player
  environment : Environment
deriving DecidableEq, Repr

/-- The `resources` record of a `GameState`. -/
structure Resources where
  seeds : ℤ
  water : ℤ
  fertilizer : ℤ
  coins : ℤ
deriving DecidableEq, Repr

/-- `GameState` from `shared/types/api.ts`. -/
structure GameState where
  player : Player
  currentBiome : Biome
  trees : List Tree
  resources : Resources
  lastPlayed : ℤ
deriving DecidableEq, Repr

/-- `ChatMessage`: id, sender, display name, text, timestamp, kind. -/
structure ChatMessage where
  id : String
  playerId : String
  username : String
  message : String
  timestamp : ℤ
  mtype : Bool
deriving DecidableEq, Repr

/-! ## World configuration constants (`src/unnamed/part_001`, lines 36–58) -/

def WORLD_WIDTH : ℕ := 2000

def WORLD_HEIGHT : ℕ := 4000

def PLOT_WIDTH : ℕ := 10

def PLOT_HEIGHT : ℕ := 20

def MAX_PLAYERS : ℕ := 200

def GRID_WIDTH : ℕ := WORLD_WIDTH / PLOT_WIDTH

def GRID_HEIGHT : ℕ := WORLD_HEIGHT / PLOT_HEIGHT

def GROWTH_TIME : ℤ := 30000

def MAX_TREES_PER_PLOT : ℕ := 5

def SEED_COST : ℤ := 10

def LAND_PLOT_COST : ℤ := 100

/-! ## Growth engine -/

/-- `calculateTreeGrowth` (`part_001` lines 254–264): with `t` the time since
planting and a `1.5×` bonus when the tree was watered within the last
60000 ms, the stage is `min (floor (t * bonus / GROWTH_TIME)) 5`. -/
def calculateTreeGrowth (tree : Tree) (now : ℤ) : ℤ :=
  let timeSincePlanted : ℤ := now - tree.plantedAt
  let timeSinceWatered : ℤ := now - tree.lastWatered
  let waterBonus : ℚ := if timeSinceWatered < 60000 then 3/2 else 1
  min ⌊(timeSincePlanted * waterBonus) / (GROWTH_TIME : ℚ)⌋ 5

/-- `calculateTreeHealth` (`part_001` lines 266–275): health decays 10 per
hour after a one-hour grace period since the last watering. -/
def calculateTreeHealth (tree : Tree) (now : ℤ) : ℚ :=
  let timeSinceWatered : ℤ := now - tree.lastWatered
  let hoursSinceWatered : ℚ := (timeSinceWatered : ℚ) / (1000 * 60 * 60)
  let healthLoss : ℚ := max 0 (hoursSinceWatered - 1) * 10
  max 0 (100 - healthLoss)

/-- The growth-stage formula exactly as §4.2 of the spec words it:
`growthStage(tree, now) = min(maxStage, floor((now - plantedAt) *
waterBonus(tree, now) / growthPeriod))` with `waterBonus = 1.5` when
`now - lastWatered < wateredWindow` (60000 ms) and `1.0` otherwise,
`growthPeriod = 30000`, `maxStage = 5`. -/
def growthStage_fromSpec (tree : Tree) (now : ℤ) : ℤ :=
  let maxStage : ℤ := 5
  let growthPeriod : ℚ := 30000
  let wateredWindow : ℤ := 60000
  let waterBonus : ℚ := if now - tree.lastWatered < wateredWindow then 1.5 else 1.0
  min maxStage ⌊((now - tree.plantedAt : ℤ) : ℚ) * waterBonus / growthPeriod⌋

/-- A tree planted at time 0 and last watered at time 30000; its water bonus
expires at `now = 90000`. -/
def treeBonusExpiry : Tree :=
  { id := "tree_1", ttype := TreeType.oak, x := 0, y := 0, z := 0,
    growthStage := 0, plantedAt := 0, lastWatered := 30000, health := 100,
    ownerId := "alice" }

/-! ## Chat ring buffer -/

/-- `addChatMessage` (`part_001` lines 182–200): push the message to the end
of the buffer; if the length then exceeds 100, keep only the last 100
(`chatMessages.slice(-100)`, i.e. drop from the front). -/
def addChatMessage (msg : ChatMessage) (buf : List ChatMessage) : List ChatMessage :=
  if 100 < (buf ++ [msg]).length then
    (buf ++ [msg]).drop ((buf ++ [msg]).length - 100)
  else buf ++ [msg]

/-- `getRecentChatMessages` (`part_001` lines 202–204): returns
`chatMessages.slice(-limit)`.  JavaScript `slice` clamps a negative start
index at 0, and `-0` is `0`, so for a positive `limit` this is the last
`min(limit, length)` messages, while for `limit = 0` it is the whole
buffer. -/
def getRecentChatMessages (buf : List ChatMessage) (limit : ℕ) : List ChatMessage :=
  if limit = 0 then buf else buf.drop (buf.length - limit)

/-- A first chat message. -/
def chatMsg1 : ChatMessage :=
  { id := "chat_1", playerId := "p1", username := "alice", message := "hi",
    timestamp := 1, mtype := true }

/-- A second chat message. -/
def chatMsg2 : ChatMessage :=
  { id := "chat_2", playerId := "p2", username := "bob", message := "hello",
    timestamp := 2, mtype := true }

/-! ## Proximity index -/

/-- The boolean distance test inside `getNearbyPlayers`: the source compares
`Math.sqrt(dx^2 + dz^2) <= radius`.  Over the reals, `sqrt s <= r` holds iff
`0 <= r` and `s <= r^2`, which is the decidable form used here; a theorem below proves it
equivalent to the `Real.sqrt` comparison. -/
def withinRadius (player p : Player) (radius : ℚ) : Bool :=
  let dx := p.position.x - player.position.x
  let dz := p.position.z - player.position.z
  decide (0 ≤ radius ∧ dx ^ 2 + dz ^ 2 ≤ radius ^ 2)

/-- `getNearbyPlayers` (`part_001` lines 426–435): linear filter of the biome
roster excluding the player themself, keeping players whose x/z-plane
distance is at most `radius` (boundary inclusive).  The source's default
radius is 20. -/
def getNearbyPlayers (player : Player) (biome : Biome) (radius : ℚ) : List Player :=
  biome.players.filter (fun p => !(p.id == player.id) && withinRadius player p radius)

/-! ## Achievement evaluator -/

/-- The `first_tree` entry of the `ACHIEVEMENTS` table. -/
def ACHIEVEMENTS_first_tree : Achievement :=
  { id := "first_tree", name := "First Steps",
    description := "Plant your first tree", icon := "🌱", unlockedAt := 0,
    category := AchievementCategory.planting }

/-- The `tree_master` entry of the `ACHIEVEMENTS` table. -/
def ACHIEVEMENTS_tree_master : Achievement :=
  { id := "tree_master", name := "Tree Master",
    description := "Plant 50 trees", icon := "🌳", unlockedAt := 0,
    category := AchievementCategory.planting }

/-- The `harvester` entry of the `ACHIEVEMENTS` table. -/
def ACHIEVEMENTS_harvester : Achievement :=
  { id := "harvester", name := "Harvester",
    description := "Harvest 25 trees", icon := "🌾", unlockedAt := 0,
    category := AchievementCategory.harvesting }

/-- The `landowner` entry of the `ACHIEVEMENTS` table. -/
def ACHIEVEMENTS_landowner : Achievement :=
  { id := "landowner", name := "Landowner",
    description := "Own 5 land plots", icon := "🏡", unlockedAt := 0,
    category := AchievementCategory.economy }

/-- The `millionaire` entry of the `ACHIEVEMENTS` table. -/
def ACHIEVEMENTS_millionaire : Achievement :=
  { id := "millionaire", name := "Millionaire",
    description := "Accumulate 10,000 coins", icon := "💰", unlockedAt := 0,
    category := AchievementCategory.economy }

/-- The `master_gardener` entry of the `ACHIEVEMENTS` table. -/
def ACHIEVEMENTS_master_gardener : Achievement :=
  { id := "master_gardener", name := "Master Gardener",
    description := "Reach level 25", icon := "👨‍🌾", unlockedAt := 0,
    category := AchievementCategory.mastery }

/-- `player.achievements.find(a => a.id === aid)` truthiness. -/
def hasAchievement (player : Player) (aid : String) : Bool :=
  player.achievements.any (fun a => a.id == aid)

/-- JavaScript truthiness of `count && count >= k` for an optional numeric
`count`: `undefined` and `0` are falsy. -/
def countAtLeast (count : Option ℤ) (k : ℤ) : Bool :=
  match count with
  | none => false
  | some c => !(c == 0) && decide (k ≤ c)

/-- `checkAchievements` (`part_001` lines 394–424): sequentially tests the six
rules, each guarded by the absence of its achievement id from the player's
unlocked set, pushing newly unlocked achievements stamped with `now`. -/
def checkAchievements (player : Player) (action : String) (count : Option ℤ)
    (now : ℤ) : List Achievement :=
  (if action == "plant_tree" && !hasAchievement player "first_tree" then
    [{ ACHIEVEMENTS_first_tree with unlockedAt := now }] else []) ++
  (if action == "plant_tree" && countAtLeast count 50 &&
      !hasAchievement player "tree_master" then
    [{ ACHIEVEMENTS_tree_master with unlockedAt := now }] else []) ++
  (if action == "harvest_tree" && countAtLeast count 25 &&
      !hasAchievement player "harvester" then
    [{ ACHIEVEMENTS_harvester with unlockedAt := now }] else []) ++
  (if action == "buy_land" && decide (5 ≤ player.landPlots.length) &&
      !hasAchievement player "landowner" then
    [{ ACHIEVEMENTS_landowner with unlockedAt := now }] else []) ++
  (if decide ((10000 : ℤ) ≤ player.coins) &&
      !hasAchievement player "millionaire" then
    [{ ACHIEVEMENTS_millionaire with unlockedAt := now }] else []) ++
  (if decide ((25 : ℤ) ≤ player.level) &&
      !hasAchievement player "master_gardener" then
    [{ ACHIEVEMENTS_master_gardener with unlockedAt := now }] else [])

/-! ## Grid plot allocator -/

/-- The scan order of `findAvailablePlot`: all grid cells, outer loop over
`gridX` (0 to `GRID_WIDTH - 1`), inner loop over `gridZ`. -/
def allPlotCells : List (ℕ × ℕ) :=
  (List.range GRID_WIDTH).flatMap
    (fun gx => (List.range GRID_HEIGHT).map (fun gz => (gx, gz)))

/-- `findAvailablePlot` (`part_001` lines 209–220): return the first cell in
the scan order that is not in `claimedPlots`, or `None` when every cell is
claimed. -/
def findAvailablePlot (claimed : List (ℕ × ℕ)) : Option (ℕ × ℕ) :=
  allPlotCells.find? (fun c => !claimed.contains c)

/-- `claimPlot` (`part_001` lines 222–234): fail if the cell is already
claimed or if `claimedPlots.size >= MAX_PLAYERS`; otherwise add the cell and
succeed.  Returns the success flag together with the updated claimed set. -/
def claimPlot (claimed : List (ℕ × ℕ)) (gx gz : ℕ) : Bool × List (ℕ × ℕ) :=
  if claimed.contains (gx, gz) then (false, claimed)
  else if MAX_PLAYERS ≤ claimed.length then (false, claimed)
  else (true, claimed ++ [(gx, gz)])

/-- The world-coordinate bounds of a grid cell. -/
structure PlotBounds where
  startX : ℚ
  startZ : ℚ
  endX : ℚ
  endZ : ℚ
  centerX : ℚ
  centerZ : ℚ
deriving DecidableEq, Repr

/-- `getPlotWorldCoordinates` (`part_001` lines 236–252). -/
def getPlotWorldCoordinates (gx gz : ℕ) : PlotBounds :=
  let startX : ℚ := gx * (PLOT_WIDTH : ℚ) - (WORLD_WIDTH : ℚ) / 2
  let startZ : ℚ := gz * (PLOT_HEIGHT : ℚ) - (WORLD_HEIGHT : ℚ) / 2
  { startX := startX, startZ := startZ,
    endX := startX + (PLOT_WIDTH : ℚ), endZ := startZ + (PLOT_HEIGHT : ℚ),
    centerX := startX + (PLOT_WIDTH : ℚ) / 2,
    centerZ := startZ + (PLOT_HEIGHT : ℚ) / 2 }

/-- Non-strict lexicographic order on grid cells: the scan order of
`findAvailablePlot` visits `a` no later than `b` iff `cellLexLe a b`. -/
def cellLexLe (a b : ℕ × ℕ) : Prop :=
  a.1 < b.1 ∨ (a.1 = b.1 ∧ a.2 ≤ b.2)

/-- Strict lexicographic order on grid cells. -/
def cellLexLt (a b : ℕ × ℕ) : Prop :=
  a.1 < b.1 ∨ (a.1 = b.1 ∧ a.2 < b.2)

/-- The claimed set with the 200 cells `(1, 0) … (1, 199)` — exactly
`MAX_PLAYERS` many — while cell `(0, 0)` is still free. -/
def claimedAtCap : List (ℕ × ℕ) := (List.range 200).map (fun z => (1, z))

/-! ## Buy-land handler and plot exclusivity -/

/-- Result of the `/api/buy-land` handler: the success flag and the
`GameState` that is returned and persisted. -/
structure BuyLandResult where
  success : Bool
  gameState : GameState
deriving DecidableEq, Repr

/-- The `/api/buy-land` handler (`part_001` lines 620–715).  It rejects the
purchase iff some existing plot lies within 10 units in **both** axes
(`Math.abs(plot.x - x) < 10 && Math.abs(plot.z - z) < 10`) or the player has
fewer than `LAND_PLOT_COST` coins; otherwise it creates the plot at the raw
request coordinates.  Note that it does not consult `claimedPlots` or call
`claimPlot`. -/
def buyLand (gs : GameState) (x z : ℚ) (newId : String) (now : ℤ) :
    BuyLandResult :=
  match gs.currentBiome.landPlots.find?
      (fun plot => decide (|plot.x - x| < 10 ∧ |plot.z - z| < 10)) with
  | some _ => ⟨false, gs⟩
  | none =>
    if gs.player.coins < LAND_PLOT_COST then ⟨false, gs⟩
    else
      let newLandPlot : LandPlot :=
        { id := newId, x := x, z := z, ownerId := gs.player.id,
          biomeType := gs.currentBiome.btype, trees := [], purchasedAt := now,
          price := LAND_PLOT_COST }
      let player' : Player :=
        { gs.player with
            landPlots := gs.player.landPlots ++ [newLandPlot.id],
            coins := gs.player.coins - LAND_PLOT_COST }
      let newAchievements :=
        checkAchievements player' "buy_land"
          (some (player'.landPlots.length : ℤ)) now
      ⟨true,
        { gs with
            player := { player' with
              achievements := player'.achievements ++ newAchievements },
            currentBiome := { gs.currentBiome with
              landPlots := gs.currentBiome.landPlots ++ [newLandPlot] },
            resources := { gs.resources with
              coins := gs.player.coins - LAND_PLOT_COST } }⟩

/-- Two land plots' world footprints overlap.  A plot's footprint is the
`PLOT_WIDTH × PLOT_HEIGHT` (10 × 20) rectangle of its grid cell, centred on
the plot's stored `(x, z)` (the starting-land path stores the cell centre):
two such rectangles intersect with positive area iff the centres differ by
less than the full extent in each axis. -/
def plotsOverlap (p q : LandPlot) : Prop :=
  |p.x - q.x| < (PLOT_WIDTH : ℚ) ∧ |p.z - q.z| < (PLOT_HEIGHT : ℚ)

/-- The grid cell whose world bounds contain the given point. -/
def cellOfPoint (x z : ℚ) : ℤ × ℤ :=
  (⌊(x + (WORLD_WIDTH : ℚ) / 2) / (PLOT_WIDTH : ℚ)⌋,
   ⌊(z + (WORLD_HEIGHT : ℚ) / 2) / (PLOT_HEIGHT : ℚ)⌋)

/-- An existing land plot at world position (0, 0) — inside grid cell
(100, 100), whose bounds are `[0, 10) × [0, 20)`. -/
def plotA : LandPlot :=
  { id := "land_A", x := 0, z := 0, ownerId := "alice",
    biomeType := BiomeType.forest, trees := [], purchasedAt := 0, price := 0 }

/-- The plot that `buyLand` creates at (0, 12) in the counterexample. -/
def plotB : LandPlot :=
  { id := "land_B", x := 0, z := 12, ownerId := "bob",
    biomeType := BiomeType.forest, trees := [], purchasedAt := 1000,
    price := LAND_PLOT_COST }

/-- The biome holding only `plotA`. -/
def biomeWithPlotA : Biome :=
  { id := "massive_world", name := "The Eternal Forest",
    btype := BiomeType.forest, maxPlayers := 200, landPlots := [plotA],
    players := [],
    environment := { skyColor := "#87CEEB", groundColor := "#90EE90",
                     fogColor := "#87CEEB" } }

/-- The buyer. -/
def playerBob : Player :=
  { id := "bob", username := "bob", avatar := "🌳", level := 1,
    experience := 0, coins := 200, achievements := [], landPlots := [],
    position := { x := 0, y := 0, z := 0 }, lastActive := 0 }

/-- Bob's game state before buying. -/
def gsBob : GameState :=
  { player := playerBob, currentBiome := biomeWithPlotA, trees := [],
    resources := { seeds := 5, water := 10, fertilizer := 0, coins := 200 },
    lastPlayed := 0 }

/-! ## World state coordinator: the remaining action handlers -/

/-- Replace the first element satisfying `p` (JavaScript's
`find`-then-mutate-in-place / `findIndex`-then-assign idiom). -/
def updateFirst {α : Type} (p : α → Bool) (f : α → α) : List α → List α
  | [] => []
  | a :: as => if p a then f a :: as else a :: updateFirst p f as

/-- The `baseReward` table of the harvest handler. -/
def TREE_BASE_REWARD : TreeType → ℤ
  | TreeType.oak => 20
  | TreeType.pine => 15
  | TreeType.cherry => 25
  | TreeType.maple => 18
  | TreeType.cedar => 22

/-- The `/api/plant-tree` handler (`part_001` lines 511–618): requires an
owned plot within 5 units in both axes, room on the plot, and a seed;
pushes the new tree, decrements seeds, grants experience, and appends any
new achievements. -/
def plantTree (gs : GameState) (treeType : TreeType) (x z : ℚ)
    (newId : String) (now : ℤ) : Bool × GameState :=
  match gs.currentBiome.landPlots.find? (fun plot =>
      decide (|plot.x - x| < 5 ∧ |plot.z - z| < 5) &&
        (plot.ownerId == gs.player.id)) with
  | none => (false, gs)
  | some landPlot =>
    if MAX_TREES_PER_PLOT ≤ landPlot.trees.length then (false, gs)
    else if gs.resources.seeds ≤ 0 then (false, gs)
    else
      let newTree : Tree :=
        { id := newId, ttype := treeType, x := x, y := 0, z := z,
          growthStage := 0, plantedAt := now, lastWatered := now,
          health := 100, ownerId := gs.player.id }
      let trees' := gs.trees ++ [newTree]
      let player' := { gs.player with
        experience := gs.player.experience + 10 }
      let newAchievements :=
        checkAchievements player' "plant_tree" (some (trees'.length : ℤ)) now
      (true,
        { gs with
            player := { player' with
              achievements := player'.achievements ++ newAchievements },
            currentBiome := { gs.currentBiome with
              landPlots := updateFirst
                (fun plot => decide (|plot.x - x| < 5 ∧ |plot.z - z| < 5) &&
                  (plot.ownerId == gs.player.id))
                (fun plot => { plot with trees := plot.trees ++ [newTree.id] })
                gs.currentBiome.landPlots },
            trees := trees',
            resources := { gs.resources with
              seeds := gs.resources.seeds - 1 } })

/-- The `/api/water-tree` handler (`part_001` lines 813–882): requires water
in stock and an existing tree; resets `lastWatered`, bumps health by 20
capped at 100, spends one water, grants 5 experience. -/
def waterTree (gs : GameState) (treeId : String) (now : ℤ) :
    Bool × GameState :=
  if gs.resources.water ≤ 0 then (false, gs)
  else
    match gs.trees.find? (fun t => t.id == treeId) with
    | none => (false, gs)
    | some _ =>
      (true,
        { gs with
            trees := updateFirst (fun t => t.id == treeId)
              (fun t => { t with lastWatered := now,
                                 health := min 100 (t.health + 20) })
              gs.trees,
            resources := { gs.resources with
              water := gs.resources.water - 1 },
            player := { gs.player with
              experience := gs.player.experience + 5 } })

/-- The `/api/move-player` handler (`part_001` lines 717–769): set the
player's position and mirror the updated player into the biome roster. -/
def movePlayer (gs : GameState) (x y z : ℚ) : GameState :=
  let player' := { gs.player with position := { x := x, y := y, z := z } }
  { gs with
      player := player',
      currentBiome := { gs.currentBiome with
        players := updateFirst (fun p => p.id == gs.player.id)
          (fun _ => player') gs.currentBiome.players } }

/-- Result of the `/api/harvest-tree` handler: the reward triple and the
`GameState` that is returned and persisted. -/
structure HarvestResult where
  coins : ℤ
  seeds : ℤ
  experience : ℤ
  gameState : GameState
deriving DecidableEq, Repr

/-- The `/api/harvest-tree` handler (`part_001` lines 884–962).  `none` is
the 404 tree-not-found response.  The guard is `tree.growthStage < 5` on the
**stored** field; the rejection path answers with zero rewards and the
untouched game state.  `Math.floor(Math.random() * 3) + 1` is passed in as
`seedsRand`. -/
def harvestTree (gs : GameState) (treeId : String) (seedsRand now : ℤ) :
    Option HarvestResult :=
  match gs.trees.find? (fun t => t.id == treeId) with
  | none => none
  | some tree =>
    if tree.growthStage < 5 then some ⟨0, 0, 0, gs⟩
    else
      let coins : ℤ :=
        ⌊(TREE_BASE_REWARD tree.ttype : ℚ) * ((tree.health : ℚ) / 100)⌋
      let experience : ℤ := ⌊(coins : ℚ) * (1 / 2 : ℚ)⌋
      let player' := { gs.player with
        coins := gs.player.coins + coins,
        experience := gs.player.experience + experience }
      let trees' := gs.trees.eraseP (fun t => t.id == treeId)
      let newAchievements :=
        checkAchievements player' "harvest_tree" (some (trees'.length : ℤ)) now
      some ⟨coins, seedsRand, experience,
        { gs with
            player := { player' with
              achievements := player'.achievements ++ newAchievements },
            trees := trees',
            resources := { gs.resources with
              coins := gs.player.coins + coins,
              seeds := gs.resources.seeds + seedsRand } }⟩

/-- The `/api/buy-seeds` handler (`part_001` lines 964–1023): no validation
of `quantity`; fails only when `player.coins < SEED_COST * quantity`. -/
def buySeeds (gs : GameState) (quantity : ℤ) : Bool × GameState :=
  if gs.player.coins < SEED_COST * quantity then (false, gs)
  else
    (true,
      { gs with
          player := { gs.player with
            coins := gs.player.coins - SEED_COST * quantity },
          resources := { gs.resources with
            coins := gs.player.coins - SEED_COST * quantity,
            seeds := gs.resources.seeds + quantity } })

/-- `getDefaultPlayer` (`part_001` lines 277–296). -/
def getDefaultPlayer (username : String) (now : ℤ) : Player :=
  { id := username, username := username, avatar := "🌳", level := 1,
    experience := 0, coins := 200, achievements := [], landPlots := [],
    position := { x := 0, y := 0, z := 0 }, lastActive := now }

/-- `getDefaultBiome` (`part_001` lines 298–312). -/
def getDefaultBiome : Biome :=
  { id := "massive_world", name := "The Eternal Forest",
    btype := BiomeType.forest, maxPlayers := (MAX_PLAYERS : ℤ),
    landPlots := [], players := [],
    environment := { skyColor := "#87CEEB", groundColor := "#90EE90",
                     fogColor := "#87CEEB" } }

/-- `getDefaultGameState` (`part_001` lines 314–327): starting resources,
with `resources.coins` initialised from the player's coins. -/
def getDefaultGameState (player : Player) (biome : Biome) (now : ℤ) :
    GameState :=
  { player := player, currentBiome := biome, trees := [],
    resources := { seeds := 5, water := 10, fertilizer := 0,
                   coins := player.coins },
    lastPlayed := now }

/-- `allocateStartingLand` (`part_001` lines 329–364): find a free cell,
claim it, create the free starting plot at the cell centre, and move the
player there.  `none` models the thrown errors (no plot / claim failed). -/
def allocateStartingLand (claimed : List (ℕ × ℕ)) (player : Player)
    (biome : Biome) (newId : String) (now : ℤ) :
    Option (List (ℕ × ℕ) × Player × Biome) :=
  match findAvailablePlot claimed with
  | none => none
  | some (gx, gz) =>
    let b := getPlotWorldCoordinates gx gz
    if (claimPlot claimed gx gz).1 = false then none
    else
      let landPlot : LandPlot :=
        { id := newId, x := b.centerX, z := b.centerZ, ownerId := player.id,
          biomeType := biome.btype, trees := [], purchasedAt := now,
          price := 0 }
      some ((claimPlot claimed gx gz).2,
        { player with landPlots := player.landPlots ++ [landPlot.id],
                      position := { x := b.centerX, y := 0, z := b.centerZ } },
        { biome with landPlots := biome.landPlots ++ [landPlot] })

/-- The new-player path of `/api/init` (`part_001` lines 437–509): build the
default player, allocate starting land, register the (allocated) player on
the biome roster — in the source the roster entry is the same mutable object
as the player, so it carries the allocated position — and construct the
default game state.  `none` is the failed-init error response. -/
def initNewPlayer (claimed : List (ℕ × ℕ)) (username : String)
    (biome : Biome) (newPlotId : String) (now : ℤ) :
    Option (List (ℕ × ℕ) × GameState) :=
  match allocateStartingLand claimed (getDefaultPlayer username now) biome
      newPlotId now with
  | none => none
  | some (claimed', player', biome') =>
    some (claimed',
      getDefaultGameState player'
        { biome' with players := biome'.players ++ [player'] } now)

/-- The existing-player path of `/api/init` (`part_001` lines 474–489):
refresh `lastActive` on the loaded player record `p` and overwrite the game
state's `player` and `currentBiome` references with the loaded records. -/
def initExistingPlayer (p : Player) (gs : GameState) (biome : Biome)
    (now : ℤ) : GameState :=
  { gs with player := { p with lastActive := now }, currentBiome := biome }

/-- The cross-entity invariant of C3:
`gameState.resources.coins == gameState.player.coins`. -/
def coinsInv (gs : GameState) : Prop :=
  gs.resources.coins = gs.player.coins

/-- Carol's starting plot at the centre of cell (0, 0). -/
def carolPlot : LandPlot :=
  { id := "plot1", x := -995, z := -1990, ownerId := "carol",
    biomeType := BiomeType.forest, trees := [], purchasedAt := 0, price := 0 }

/-- Carol after allocation of starting cell (0, 0). -/
def carolPlayer : Player :=
  { getDefaultPlayer "carol" 0 with
      landPlots := ["plot1"],
      position := { x := -995, y := 0, z := -1990 } }

/-- The default biome after Carol's registration. -/
def carolBiome : Biome :=
  { getDefaultBiome with landPlots := [carolPlot], players := [carolPlayer] }

/-- The game state produced by `initNewPlayer [] "carol" getDefaultBiome
"plot1" 0`: starting land is cell (0, 0), whose centre is (-995, -1990). -/
def carolGameState : GameState :=
  getDefaultGameState carolPlayer carolBiome 0

/-- The player record whose game state `gsMature` holds a tree with stored
`growthStage = 5`. -/
def treeMature : Tree :=
  { id := "t1", ttype := TreeType.oak, x := 0, y := 0, z := 0,
    growthStage := 5, plantedAt := 1000, lastWatered := 1000, health := 100,
    ownerId := "bob" }

/-- A game state holding `treeMature`. -/
def gsMature : GameState :=
  { player := playerBob, currentBiome := biomeWithPlotA,
    trees := [treeMature],
    resources := { seeds := 5, water := 10, fertilizer := 0, coins := 200 },
    lastPlayed := 0 }

/-- What harvesting `treeMature` from `gsMature` produces: 20 coins
(`floor(20 * 100/100)`), the random seed roll (here 2), 10 experience. -/
def harvestOutMature : HarvestResult :=
  { coins := 20, seeds := 2, experience := 10,
    gameState := { gsMature with
      player := { playerBob with coins := 220, experience := 10 },
      trees := [],
      resources := { seeds := 7, water := 10, fertilizer := 0,
                     coins := 220 } } }

/-- A game state holding a freshly planted tree (stored stage 0). -/
def treeYoung : Tree :=
  { id := "t2", ttype := TreeType.oak, x := 0, y := 0, z := 0,
    growthStage := 0, plantedAt := 0, lastWatered := 0, health := 100,
    ownerId := "bob" }

/-- `gsMature` with `treeYoung` instead of the mature tree. -/
def gsYoung : GameState :=
  { gsMature with trees := [treeYoung] }

/-- A player who already unlocked `first_tree` and has 10000 coins, so a
plant action re-checks `first_tree` (blocked) and unlocks `millionaire`. -/
def playerWithAch : Player :=
  { id := "alice", username := "alice", avatar := "🌳", level := 1,
    experience := 0, coins := 10000,
    achievements := [ACHIEVEMENTS_first_tree], landPlots := [],
    position := { x := 0, y := 0, z := 0 }, lastActive := 0 }

/-- C5: the computed growth stage equals the spec's closed formula
`min(5, floor((now - plantedAt) * waterBonus / 30000))` with the bonus `1.5`
exactly when `now - lastWatered < 60000`. -/
theorem c5_growth_formula (tree : Tree) (now : ℤ) :
    calculateTreeGrowth tree now = growthStage_fromSpec tree now := by
  unfold calculateTreeGrowth growthStage_fromSpec
  norm_num [GROWTH_TIME, min_comm]

/-- C1 counterexample: growth is not monotone in `now`.  For the tree planted
at 0 and watered at 30000, the stage at `now = 89999` (bonus still active) is
4, but at `now = 90000` (bonus expired) it drops to 3. -/
theorem c1_growth_not_monotone :
    calculateTreeGrowth treeBonusExpiry 89999 = 4 ∧
    calculateTreeGrowth treeBonusExpiry 90000 = 3 := by
  constructor <;> · unfold calculateTreeGrowth treeBonusExpiry; norm_num [GROWTH_TIME]

/-- C1 amended: with `plantedAt`/`lastWatered` fixed, the growth stage is
monotonically non-decreasing in `now` as long as the water-bonus condition
(`now - lastWatered < 60000`) does not change between the two query times;
it can drop only at the instant the watering bonus expires. -/
theorem c1_growth_monotone_same_bonus (tree : Tree) (n1 n2 : ℤ)
    (h : n1 ≤ n2)
    (hb : (n1 - tree.lastWatered < 60000) ↔ (n2 - tree.lastWatered < 60000)) :
    calculateTreeGrowth tree n1 ≤ calculateTreeGrowth tree n2 := by
  unfold calculateTreeGrowth
  have ht : ((n1 - tree.plantedAt : ℤ) : ℚ) ≤ ((n2 - tree.plantedAt : ℤ) : ℚ) := by
    exact_mod_cast sub_le_sub_right h tree.plantedAt
  by_cases h1 : n1 - tree.lastWatered < 60000
  · have h2 : n2 - tree.lastWatered < 60000 := hb.mp h1
    simp only [if_pos h1, if_pos h2]
    refine min_le_min (Int.floor_le_floor ?_) le_rfl
    rw [GROWTH_TIME]
    push_cast at ht ⊢
    linarith
  · have h2 : ¬ n2 - tree.lastWatered < 60000 := fun hlt => h1 (hb.mpr hlt)
    simp only [if_neg h1, if_neg h2]
    refine min_le_min (Int.floor_le_floor ?_) le_rfl
    rw [GROWTH_TIME]
    push_cast at ht ⊢
    linarith

/-- Witness for `c1_growth_monotone_same_bonus` at the concrete tree
`treeBonusExpiry` and times 0 and 1000 (both inside the watered window). -/
theorem c1_growth_monotone_same_bonus_witness :
    calculateTreeGrowth treeBonusExpiry 0 ≤ calculateTreeGrowth treeBonusExpiry 1000 :=
  c1_growth_monotone_same_bonus treeBonusExpiry 0 1000 (by norm_num)
    (by unfold treeBonusExpiry; norm_num)

/-- C9 counterexample: for the non-negative limit 0, `getRecentChatMessages`
does not return the last 0 messages (the empty list); `slice(-0)` is
`slice(0)`, which returns the entire buffer. -/
theorem c9_recent_zero_counterexample :
    getRecentChatMessages [chatMsg1, chatMsg2] 0 = [chatMsg1, chatMsg2] ∧
    ([chatMsg1, chatMsg2] : List ChatMessage) ≠ [] := by
  constructor
  · rfl
  · simp

/-- C9 amended: the buffer is capped at 100 with the oldest messages evicted
first (the retained messages are a suffix of the appended buffer, so relative
order is preserved); for every positive `limit`, `getRecentChatMessages`
returns the last `min limit n` stored messages in chronological order (a
suffix of the buffer of that length); for `limit = 0` it returns the whole
buffer. -/
theorem c9_chat_buffer :
    (∀ (msg : ChatMessage) (buf : List ChatMessage),
        (addChatMessage msg buf).length ≤ max 100 buf.length) ∧
    (∀ (msg : ChatMessage) (buf : List ChatMessage),
        buf.length ≤ 100 → (addChatMessage msg buf).length ≤ 100) ∧
    (∀ (msg : ChatMessage) (buf : List ChatMessage),
        addChatMessage msg buf <:+ buf ++ [msg]) ∧
    (∀ (buf : List ChatMessage) (limit : ℕ), 0 < limit →
        (getRecentChatMessages buf limit).length = min limit buf.length ∧
        getRecentChatMessages buf limit <:+ buf) ∧
    (∀ buf : List ChatMessage, getRecentChatMessages buf 0 = buf) := by
  refine ⟨?_, ?_, ?_, ?_, ?_⟩
  · intro msg buf
    unfold addChatMessage
    split
    · simp only [List.length_drop, List.length_append, List.length_singleton]
      omega
    · next hlen =>
      simp only [List.length_append, List.length_singleton] at *
      omega
  · intro msg buf h
    unfold addChatMessage
    split
    · simp only [List.length_drop]
      omega
    · next hlen => omega
  · intro msg buf
    unfold addChatMessage
    split
    · exact List.drop_suffix _ _
    · exact List.suffix_refl _
  · intro buf limit hpos
    unfold getRecentChatMessages
    rw [if_neg (Nat.pos_iff_ne_zero.mp hpos)]
    refine ⟨?_, List.drop_suffix _ _⟩
    simp only [List.length_drop]
    omega
  · intro buf
    rfl

/-- Witness for `c9_chat_buffer` at concrete inputs: a two-message buffer
stays under the cap, and `limit = 1` returns exactly the most recent
message. -/
theorem c9_chat_buffer_witness :
    (addChatMessage chatMsg2 [chatMsg1]).length ≤ 100 ∧
    (getRecentChatMessages [chatMsg1, chatMsg2] 1).length =
      min 1 ([chatMsg1, chatMsg2] : List ChatMessage).length :=
  ⟨c9_chat_buffer.2.1 chatMsg2 [chatMsg1] (by decide),
   (c9_chat_buffer.2.2.2.1 [chatMsg1, chatMsg2] 1 (by decide)).1⟩

/-- The `sqrt`-vs-square comparison used to justify `withinRadius`. -/
theorem withinRadius_eq_sqrt_le (player p : Player) (radius : ℚ) :
    withinRadius player p radius = true ↔
      Real.sqrt (((p.position.x - player.position.x : ℚ) : ℝ) ^ 2 +
          ((p.position.z - player.position.z : ℚ) : ℝ) ^ 2) ≤ ((radius : ℚ) : ℝ) := by
  rw [Real.sqrt_le_iff, withinRadius]
  simp only [decide_eq_true_eq]
  constructor
  · rintro ⟨h0, hle⟩
    refine ⟨by exact_mod_cast h0, by exact_mod_cast hle⟩
  · rintro ⟨h0, hle⟩
    refine ⟨by exact_mod_cast h0, by exact_mod_cast hle⟩

/-- C8: a player `q` is returned by `getNearbyPlayers` iff `q` is on the
biome roster, is not the queried player themself, and lies at Euclidean
x/z-plane distance at most `radius` from them (boundary inclusive). -/
theorem c8_nearby_exact (player : Player) (biome : Biome) (radius : ℚ)
    (q : Player) :
    q ∈ getNearbyPlayers player biome radius ↔
      q ∈ biome.players ∧ q.id ≠ player.id ∧
        Real.sqrt (((q.position.x - player.position.x : ℚ) : ℝ) ^ 2 +
            ((q.position.z - player.position.z : ℚ) : ℝ) ^ 2) ≤ ((radius : ℚ) : ℝ) := by
  rw [getNearbyPlayers, List.mem_filter]
  simp only [Bool.and_eq_true, Bool.not_eq_true', beq_eq_false_iff_ne,
    withinRadius_eq_sqrt_le, and_assoc]

/-- Membership in a guarded singleton yields the guard and the equality. -/
theorem mem_ite_singleton {α : Type} {c : Prop} [Decidable c] {x a : α}
    (h : a ∈ (if c then [x] else [])) : c ∧ a = x := by
  split at h <;> simp_all

/-- A list whose every guarded segment fired contains the fired element. -/
theorem any_of_mem {l : List Achievement} {x : Achievement} (hx : x ∈ l)
    {aid : String} (hid : x.id = aid) :
    l.any (fun a => a.id == aid) = true :=
  List.any_eq_true.mpr ⟨x, hx, by simp [hid]⟩

/-- If the `first_tree` rule's guard holds, the first call pushes it. -/
theorem first_tree_fires (p : Player) (action : String) (count : Option ℤ)
    (now : ℤ) (hB : (action == "plant_tree") = true)
    (hh : hasAchievement p "first_tree" = false) :
    { ACHIEVEMENTS_first_tree with unlockedAt := now } ∈
      checkAchievements p action count now := by
  simp [checkAchievements, hB, hh]

/-- If the `tree_master` rule's guard holds, the first call pushes it. -/
theorem tree_master_fires (p : Player) (action : String) (count : Option ℤ)
    (now : ℤ) (hB1 : (action == "plant_tree") = true)
    (hB2 : countAtLeast count 50 = true)
    (hh : hasAchievement p "tree_master" = false) :
    { ACHIEVEMENTS_tree_master with unlockedAt := now } ∈
      checkAchievements p action count now := by
  simp [checkAchievements, hB1, hB2, hh]

/-- If the `harvester` rule's guard holds, the first call pushes it. -/
theorem harvester_fires (p : Player) (action : String) (count : Option ℤ)
    (now : ℤ) (hB1 : (action == "harvest_tree") = true)
    (hB2 : countAtLeast count 25 = true)
    (hh : hasAchievement p "harvester" = false) :
    { ACHIEVEMENTS_harvester with unlockedAt := now } ∈
      checkAchievements p action count now := by
  simp [checkAchievements, hB1, hB2, hh]

/-- If the `landowner` rule's guard holds, the first call pushes it. -/
theorem landowner_fires (p : Player) (action : String) (count : Option ℤ)
    (now : ℤ) (hB1 : (action == "buy_land") = true)
    (hB2 : decide (5 ≤ p.landPlots.length) = true)
    (hh : hasAchievement p "landowner" = false) :
    { ACHIEVEMENTS_landowner with unlockedAt := now } ∈
      checkAchievements p action count now := by
  simp [checkAchievements, hB1, hB2, hh]

/-- If the `millionaire` rule's guard holds, the first call pushes it. -/
theorem millionaire_fires (p : Player) (action : String) (count : Option ℤ)
    (now : ℤ) (hB : decide ((10000 : ℤ) ≤ p.coins) = true)
    (hh : hasAchievement p "millionaire" = false) :
    { ACHIEVEMENTS_millionaire with unlockedAt := now } ∈
      checkAchievements p action count now := by
  simp [checkAchievements, hB, hh]

/-- If the `master_gardener` rule's guard holds, the first call pushes it. -/
theorem master_gardener_fires (p : Player) (action : String) (count : Option ℤ)
    (now : ℤ) (hB : decide ((25 : ℤ) ≤ p.level) = true)
    (hh : hasAchievement p "master_gardener" = false) :
    { ACHIEVEMENTS_master_gardener with unlockedAt := now } ∈
      checkAchievements p action count now := by
  simp [checkAchievements, hB, hh]

/-- C7: achievement evaluation is idempotent.  No achievement whose id the
player already holds is returned, and appending the first call's result to
the player's achievements makes a second call with the same action and count
return the empty list. -/
theorem c7_achievements_idempotent :
    (∀ (p : Player) (action : String) (count : Option ℤ) (now : ℤ)
        (a : Achievement), a ∈ checkAchievements p action count now →
        ∀ b ∈ p.achievements, b.id ≠ a.id) ∧
    (∀ (p : Player) (action : String) (count : Option ℤ) (now now' : ℤ),
        checkAchievements
          { p with achievements :=
              p.achievements ++ checkAchievements p action count now }
          action count now' = []) := by
  constructor
  · intro p action count now a ha b hb
    simp only [checkAchievements, List.mem_append] at ha
    rcases ha with ((((h | h) | h) | h) | h) | h <;>
      · obtain ⟨hc, rfl⟩ := mem_ite_singleton h
        simp only [Bool.and_eq_true, Bool.not_eq_true'] at hc
        have hhas := hc.2
        simp only [hasAchievement, List.any_eq_false] at hhas
        have hb2 := hhas b hb
        simpa [ACHIEVEMENTS_first_tree, ACHIEVEMENTS_tree_master,
          ACHIEVEMENTS_harvester, ACHIEVEMENTS_landowner,
          ACHIEVEMENTS_millionaire, ACHIEVEMENTS_master_gardener] using hb2
  · intro p action count now now'
    rw [List.eq_nil_iff_forall_not_mem]
    intro a ha
    set r := checkAchievements p action count now with hrdef
    simp only [checkAchievements, List.mem_append] at ha
    rcases ha with ((((h | h) | h) | h) | h) | h
    · obtain ⟨hc, rfl⟩ := mem_ite_singleton h
      simp only [Bool.and_eq_true, Bool.not_eq_true'] at hc
      have hh' := hc.2
      simp only [hasAchievement, List.any_append, Bool.or_eq_false_iff] at hh'
      have hx := first_tree_fires p action count now hc.1 hh'.1
      rw [← hrdef] at hx
      have hany := any_of_mem hx
        (show ({ ACHIEVEMENTS_first_tree with unlockedAt := now } :
          Achievement).id = "first_tree" from rfl)
      rw [hh'.2] at hany
      exact absurd hany (by simp)
    · obtain ⟨hc, rfl⟩ := mem_ite_singleton h
      simp only [Bool.and_eq_true, Bool.not_eq_true'] at hc
      have hh' := hc.2
      simp only [hasAchievement, List.any_append, Bool.or_eq_false_iff] at hh'
      have hx := tree_master_fires p action count now hc.1.1 hc.1.2 hh'.1
      rw [← hrdef] at hx
      have hany := any_of_mem hx
        (show ({ ACHIEVEMENTS_tree_master with unlockedAt := now } :
          Achievement).id = "tree_master" from rfl)
      rw [hh'.2] at hany
      exact absurd hany (by simp)
    · obtain ⟨hc, rfl⟩ := mem_ite_singleton h
      simp only [Bool.and_eq_true, Bool.not_eq_true'] at hc
      have hh' := hc.2
      simp only [hasAchievement, List.any_append, Bool.or_eq_false_iff] at hh'
      have hx := harvester_fires p action count now hc.1.1 hc.1.2 hh'.1
      rw [← hrdef] at hx
      have hany := any_of_mem hx
        (show ({ ACHIEVEMENTS_harvester with unlockedAt := now } :
          Achievement).id = "harvester" from rfl)
      rw [hh'.2] at hany
      exact absurd hany (by simp)
    · obtain ⟨hc, rfl⟩ := mem_ite_singleton h
      simp only [Bool.and_eq_true, Bool.not_eq_true'] at hc
      have hh' := hc.2
      simp only [hasAchievement, List.any_append, Bool.or_eq_false_iff] at hh'
      have hx := landowner_fires p action count now hc.1.1 hc.1.2 hh'.1
      rw [← hrdef] at hx
      have hany := any_of_mem hx
        (show ({ ACHIEVEMENTS_landowner with unlockedAt := now } :
          Achievement).id = "landowner" from rfl)
      rw [hh'.2] at hany
      exact absurd hany (by simp)
    · obtain ⟨hc, rfl⟩ := mem_ite_singleton h
      simp only [Bool.and_eq_true, Bool.not_eq_true'] at hc
      have hh' := hc.2
      simp only [hasAchievement, List.any_append, Bool.or_eq_false_iff] at hh'
      have hx := millionaire_fires p action count now hc.1 hh'.1
      rw [← hrdef] at hx
      have hany := any_of_mem hx
        (show ({ ACHIEVEMENTS_millionaire with unlockedAt := now } :
          Achievement).id = "millionaire" from rfl)
      rw [hh'.2] at hany
      exact absurd hany (by simp)
    · obtain ⟨hc, rfl⟩ := mem_ite_singleton h
      simp only [Bool.and_eq_true, Bool.not_eq_true'] at hc
      have hh' := hc.2
      simp only [hasAchievement, List.any_append, Bool.or_eq_false_iff] at hh'
      have hx := master_gardener_fires p action count now hc.1 hh'.1
      rw [← hrdef] at hx
      have hany := any_of_mem hx
        (show ({ ACHIEVEMENTS_master_gardener with unlockedAt := now } :
          Achievement).id = "master_gardener" from rfl)
      rw [hh'.2] at hany
      exact absurd hany (by simp)

/-- The scan order is strictly lexicographically sorted. -/
theorem allPlotCells_sorted : allPlotCells.Pairwise cellLexLt := by
  unfold allPlotCells
  rw [List.pairwise_flatMap]
  constructor
  · intro gx _
    rw [List.pairwise_map]
    exact (List.pairwise_lt_range _).imp (fun h => Or.inr ⟨rfl, h⟩)
  · have := List.pairwise_lt_range GRID_WIDTH
    refine this.imp ?_
    intro a b hab x hx y hy
    simp only [List.mem_map] at hx hy
    obtain ⟨za, _, rfl⟩ := hx
    obtain ⟨zb, _, rfl⟩ := hy
    exact Or.inl hab

/-- `cellLexLt` and `cellLexLe` are incompatible in opposite directions. -/
theorem cellLex_asymm {a b : ℕ × ℕ} (h1 : cellLexLt a b) (h2 : cellLexLe b a) :
    False := by
  rcases h1 with h1 | ⟨e1, h1⟩ <;> rcases h2 with h2 | ⟨e2, h2⟩ <;> omega

/-- On a strictly lex-sorted list, `find?` returns `some c` iff `c` is a
member satisfying the predicate that is lex-minimal among all members
satisfying it. -/
theorem find?_sorted_eq_some_iff {l : List (ℕ × ℕ)}
    (hs : l.Pairwise cellLexLt) (p : ℕ × ℕ → Bool) (c : ℕ × ℕ) :
    l.find? p = some c ↔
      c ∈ l ∧ p c = true ∧ ∀ c' ∈ l, p c' = true → cellLexLe c c' := by
  induction l with
  | nil => simp
  | cons a l ih =>
    have ha : ∀ x ∈ l, cellLexLt a x := fun x hx => List.rel_of_pairwise_cons hs hx
    have hs' := hs.of_cons
    by_cases hp : p a = true
    · rw [List.find?_cons_of_pos _ hp]
      constructor
      · rintro h
        obtain rfl : a = c := by simpa using h
        refine ⟨List.mem_cons_self _ _, hp, ?_⟩
        intro c' hc' _
        rcases List.mem_cons.mp hc' with rfl | hc'
        · exact Or.inr ⟨rfl, le_rfl⟩
        · rcases ha c' hc' with h | ⟨e, h⟩
          · exact Or.inl h
          · exact Or.inr ⟨e, h.le⟩
      · rintro ⟨hmem, hpc, hmin⟩
        rcases List.mem_cons.mp hmem with rfl | hmem
        · rfl
        · exact absurd (hmin a (List.mem_cons_self _ _) hp)
            (fun hle => cellLex_asymm (ha c hmem) hle)
    · rw [List.find?_cons_of_neg _ hp]
      rw [ih hs']
      constructor
      · rintro ⟨hmem, hpc, hmin⟩
        refine ⟨List.mem_cons_of_mem _ hmem, hpc, ?_⟩
        intro c' hc' hpc'
        rcases List.mem_cons.mp hc' with rfl | hc'
        · exact absurd hpc' (by simp [hp])
        · exact hmin c' hc' hpc'
      · rintro ⟨hmem, hpc, hmin⟩
        rcases List.mem_cons.mp hmem with rfl | hmem
        · exact absurd hpc (by simp [hp])
        · exact ⟨hmem, hpc, fun c' hc' hpc' =>
            hmin c' (List.mem_cons_of_mem _ hc') hpc'⟩

/-- C6 amended: `findAvailablePlot` returns the lexicographically first
(`gridX`-major scan order) unclaimed cell, and returns `None` exactly when
every grid cell is claimed; reaching the `MAX_PLAYERS` cap does not make
`findAvailablePlot` return `None` — the cap is enforced separately by
`claimPlot`, which refuses to claim once the claimed count reaches
`MAX_PLAYERS`. -/
theorem c6_find_available_plot :
    (∀ (claimed : List (ℕ × ℕ)) (c : ℕ × ℕ),
        findAvailablePlot claimed = some c ↔
          c ∈ allPlotCells ∧ c ∉ claimed ∧
            ∀ c' ∈ allPlotCells, c' ∉ claimed → cellLexLe c c') ∧
    (∀ claimed : List (ℕ × ℕ),
        findAvailablePlot claimed = none ↔ ∀ c ∈ allPlotCells, c ∈ claimed) ∧
    (∀ (claimed : List (ℕ × ℕ)) (gx gz : ℕ),
        MAX_PLAYERS ≤ claimed.length → (claimPlot claimed gx gz).1 = false) := by
  refine ⟨?_, ?_, ?_⟩
  · intro claimed c
    rw [findAvailablePlot, find?_sorted_eq_some_iff allPlotCells_sorted]
    simp
  · intro claimed
    rw [findAvailablePlot, List.find?_eq_none]
    simp
  · intro claimed gx gz h
    by_cases h1 : (gx, gz) ∈ claimed
    · simp [claimPlot, h1]
    · simp [claimPlot, h1, h]

/-- Witness for `c6_find_available_plot` at concrete inputs: on the empty
claimed set the scan returns cell (0, 0), and with the cap reached
`claimPlot` refuses. -/
theorem c6_find_available_plot_witness :
    ((0, 0) ∈ allPlotCells ∧ (0, 0) ∉ ([] : List (ℕ × ℕ)) ∧
      ∀ c' ∈ allPlotCells, c' ∉ ([] : List (ℕ × ℕ)) → cellLexLe (0, 0) c') ∧
    (claimPlot ((List.range 200).map (fun z => (1, z))) 5 5).1 = false :=
  ⟨(c6_find_available_plot.1 [] (0, 0)).mp (by rfl),
   c6_find_available_plot.2.2 ((List.range 200).map (fun z => (1, z))) 5 5
     (by simp [MAX_PLAYERS])⟩

/-- C6 counterexample: with the global player cap reached (200 claimed
cells), `findAvailablePlot` still returns a cell rather than `None`: the cap
check lives in `claimPlot`, not in `findAvailablePlot`. -/
theorem c6_cap_counterexample :
    claimedAtCap.length = MAX_PLAYERS ∧
    findAvailablePlot claimedAtCap = some (0, 0) := by
  constructor
  · rfl
  · rfl

/-- C2 counterexample: a buy-land purchase at (0, 12) next to the existing
plot at (0, 0) succeeds — the handler's geometric check (`|dx| < 10` and
`|dz| < 10`) does not reject it — yet the two plots' centres lie in the same
grid cell (100, 100) and their 10 × 20 footprints overlap, and `claimPlot`
was never consulted.  So grid-cell exclusivity is not enforced for the
buy-land path. -/
theorem c2_overlap_counterexample :
    (buyLand gsBob 0 12 "land_B" 1000).success = true ∧
    (buyLand gsBob 0 12 "land_B" 1000).gameState.currentBiome.landPlots =
      [plotA, plotB] ∧
    plotsOverlap plotA plotB ∧
    cellOfPoint plotA.x plotA.z = cellOfPoint plotB.x plotB.z := by
  refine ⟨by with_unfolding_all rfl, by with_unfolding_all rfl, ?_,
    by with_unfolding_all rfl⟩
  unfold plotsOverlap plotA plotB PLOT_WIDTH PLOT_HEIGHT
  norm_num

/-- C2 amended: the grid allocator itself does guarantee exclusivity —
`claimPlot` never succeeds twice for the same cell (the path used for init's
starting-land allocation) — but the buy-land path creates its `LandPlot`
without the allocator, so allocator-enforced exclusivity does not extend to
it (see the counterexample). -/
theorem c2_claim_plot_exclusive (claimed : List (ℕ × ℕ)) (gx gz : ℕ)
    (h : (claimPlot claimed gx gz).1 = true) :
    (claimPlot (claimPlot claimed gx gz).2 gx gz).1 = false := by
  by_cases h1 : (gx, gz) ∈ claimed
  · simp [claimPlot, h1] at h
  · by_cases h2 : MAX_PLAYERS ≤ claimed.length
    · simp [claimPlot, h1, h2] at h
    · simp [claimPlot, h1, h2]

/-- Witness for `c2_claim_plot_exclusive`: claiming cell (3, 4) twice from
the empty claimed set fails the second time. -/
theorem c2_claim_plot_exclusive_witness :
    (claimPlot (claimPlot [] 3 4).2 3 4).1 = false :=
  c2_claim_plot_exclusive [] 3 4 (by rfl)

/-- C3: every action handler preserves
`gameState.resources.coins == gameState.player.coins`: the new-player init
establishes it by construction; the existing-player init preserves it
provided the loaded player record carries the player's coins; move, plant
and water do not touch coins; harvest, buy-seeds and buy-land update both
copies from the same expression. -/
theorem c3_coins_invariant :
    (∀ (claimed : List (ℕ × ℕ)) (username newPlotId : String)
        (biome : Biome) (now : ℤ) (claimed' : List (ℕ × ℕ))
        (gs' : GameState),
        initNewPlayer claimed username biome newPlotId now =
            some (claimed', gs') →
        coinsInv gs') ∧
    (∀ (p : Player) (gs : GameState) (biome : Biome) (now : ℤ),
        gs.resources.coins = p.coins →
        coinsInv (initExistingPlayer p gs biome now)) ∧
    (∀ (gs : GameState) (x y z : ℚ),
        coinsInv gs → coinsInv (movePlayer gs x y z)) ∧
    (∀ (gs : GameState) (tt : TreeType) (x z : ℚ) (newId : String) (now : ℤ),
        coinsInv gs → coinsInv (plantTree gs tt x z newId now).2) ∧
    (∀ (gs : GameState) (treeId : String) (now : ℤ),
        coinsInv gs → coinsInv (waterTree gs treeId now).2) ∧
    (∀ (gs : GameState) (treeId : String) (seedsRand now : ℤ)
        (out : HarvestResult),
        harvestTree gs treeId seedsRand now = some out →
        coinsInv gs → coinsInv out.gameState) ∧
    (∀ (gs : GameState) (quantity : ℤ),
        coinsInv gs → coinsInv (buySeeds gs quantity).2) ∧
    (∀ (gs : GameState) (x z : ℚ) (newId : String) (now : ℤ),
        coinsInv gs → coinsInv (buyLand gs x z newId now).gameState) := by
  refine ⟨?_, ?_, ?_, ?_, ?_, ?_, ?_, ?_⟩
  · intro claimed username newPlotId biome now claimed' gs' h
    unfold initNewPlayer at h
    split at h
    · exact absurd h (by simp)
    · injection h with h1
      injection h1 with h2 h3
      subst h3
      rfl
  · intro p gs biome now h
    exact h
  · intro gs x y z h
    exact h
  · intro gs tt x z newId now h
    unfold plantTree
    repeat' split
    all_goals exact h
  · intro gs treeId now h
    unfold waterTree
    repeat' split
    all_goals exact h
  · intro gs treeId seedsRand now out heq h
    unfold harvestTree at heq
    repeat' split at heq
    all_goals first
      | exact Option.noConfusion heq
      | (obtain rfl : _ = out := by simpa using heq
         first
          | exact h
          | rfl)
  · intro gs quantity h
    unfold buySeeds
    repeat' split
    all_goals first
      | exact h
      | rfl
  · intro gs x z newId now h
    unfold buyLand
    repeat' split
    all_goals first
      | exact h
      | rfl

/-- Witness for `c3_coins_invariant`: every hypothesised conjunct applied at
concrete inputs. -/
theorem c3_coins_invariant_witness :
    coinsInv carolGameState ∧
    coinsInv (initExistingPlayer playerBob gsBob biomeWithPlotA 5) ∧
    coinsInv (movePlayer gsBob 1 2 3) ∧
    coinsInv (plantTree gsBob TreeType.oak 0 0 "t9" 5).2 ∧
    coinsInv (waterTree gsMature "t1" 5).2 ∧
    coinsInv harvestOutMature.gameState ∧
    coinsInv (buySeeds gsBob 3).2 ∧
    coinsInv (buyLand gsBob 0 12 "land_B" 1000).gameState :=
  ⟨c3_coins_invariant.1 [] "carol" "plot1" getDefaultBiome 0 [(0, 0)]
      carolGameState (by with_unfolding_all rfl),
   c3_coins_invariant.2.1 playerBob gsBob biomeWithPlotA 5 (by rfl),
   c3_coins_invariant.2.2.1 gsBob 1 2 3 (by rfl),
   c3_coins_invariant.2.2.2.1 gsBob TreeType.oak 0 0 "t9" 5 (by rfl),
   c3_coins_invariant.2.2.2.2.1 gsMature "t1" 5 (by rfl),
   c3_coins_invariant.2.2.2.2.2.1 gsMature "t1" 2 1000 harvestOutMature
     (by with_unfolding_all rfl) (by rfl),
   c3_coins_invariant.2.2.2.2.2.2.1 gsBob 3 (by rfl),
   c3_coins_invariant.2.2.2.2.2.2.2 gsBob 0 12 "land_B" 1000 (by rfl)⟩

/-- C4 amended: the harvest handler's guard is the **stored**
`tree.growthStage` field, not a recomputation from timestamps: when the
found tree's stored stage is below 5 the handler answers with zero rewards
and the unchanged game state (coins, seeds, experience and the tree list are
untouched); when the stored stage is at least 5 it removes the tree and pays
out `floor(baseReward * health/100)` coins. -/
theorem c4_harvest_guard (gs : GameState) (treeId : String)
    (seedsRand now : ℤ) (t : Tree)
    (hfind : gs.trees.find? (fun t => t.id == treeId) = some t) :
    (t.growthStage < 5 →
        harvestTree gs treeId seedsRand now = some ⟨0, 0, 0, gs⟩) ∧
    (¬t.growthStage < 5 →
        ∃ out : HarvestResult,
          harvestTree gs treeId seedsRand now = some out ∧
          out.gameState.trees = gs.trees.eraseP (fun t => t.id == treeId) ∧
          out.coins = ⌊(TREE_BASE_REWARD t.ttype : ℚ) * ((t.health : ℚ) / 100)⌋ ∧
          out.gameState.player.coins = gs.player.coins + out.coins) := by
  constructor
  · intro hlt
    unfold harvestTree
    simp only [hfind]
    rw [if_pos hlt]
  · intro hge
    unfold harvestTree
    simp only [hfind]
    rw [if_neg hge]
    exact ⟨_, rfl, rfl, rfl, rfl⟩

/-- Witness for `c4_harvest_guard`: harvesting the freshly planted tree
(stored stage 0) is rejected with zero rewards and an unchanged state. -/
theorem c4_harvest_guard_witness :
    harvestTree gsYoung "t2" 2 1000 = some ⟨0, 0, 0, gsYoung⟩ :=
  (c4_harvest_guard gsYoung "t2" 2 1000 treeYoung (by rfl)).1 (by decide)

/-- C4 counterexample: the guard does not recompute the growth stage.
`treeMature` has stored `growthStage = 5` but was planted at `now` itself,
so `growthStage(tree, now)` recomputed from its timestamps is 0 — yet the
harvest succeeds: it pays 20 coins and removes the tree. -/
theorem c4_recomputed_stage_counterexample :
    calculateTreeGrowth treeMature 1000 = 0 ∧
    harvestTree gsMature "t1" 2 1000 = some harvestOutMature ∧
    harvestOutMature.coins = 20 ∧
    harvestOutMature.gameState.trees = [] := by
  refine ⟨?_, by with_unfolding_all rfl, by rfl, by rfl⟩
  unfold calculateTreeGrowth treeMature
  norm_num [GROWTH_TIME]

/-- C10: buy-seeds performs no validation of the quantity: for every integer
`q` the purchase succeeds exactly when `SEED_COST * q ≤ player.coins`; on
success both coin copies become `coins - SEED_COST * q` and the seed count
becomes `seeds + q`; hence a negative quantity always succeeds (given a
non-negative balance) and strictly increases the player's coins. -/
theorem c10_buy_seeds_no_validation (gs : GameState) (q : ℤ) :
    ((buySeeds gs q).1 = true ↔ SEED_COST * q ≤ gs.player.coins) ∧
    ((buySeeds gs q).1 = true →
      (buySeeds gs q).2.player.coins = gs.player.coins - SEED_COST * q ∧
      (buySeeds gs q).2.resources.coins = gs.player.coins - SEED_COST * q ∧
      (buySeeds gs q).2.resources.seeds = gs.resources.seeds + q) ∧
    (q < 0 → 0 ≤ gs.player.coins →
      (buySeeds gs q).1 = true ∧
      gs.player.coins < (buySeeds gs q).2.player.coins) := by
  unfold buySeeds
  by_cases hc : gs.player.coins < SEED_COST * q
  · rw [if_pos hc]
    refine ⟨?_, ?_, ?_⟩
    · constructor
      · intro hfalse
        exact absurd hfalse (by simp)
      · intro hle
        exact absurd hc (not_lt.mpr hle)
    · intro hfalse
      exact absurd hfalse (by simp)
    · intro hq h0
      exfalso
      have hneg : SEED_COST * q < 0 :=
        mul_neg_of_pos_of_neg (by norm_num [SEED_COST]) hq
      linarith
  · rw [if_neg hc]
    refine ⟨?_, ?_, ?_⟩
    · simp [not_lt.mp hc]
    · intro _
      exact ⟨rfl, rfl, rfl⟩
    · intro hq h0
      refine ⟨rfl, ?_⟩
      have hneg : SEED_COST * q < 0 :=
        mul_neg_of_pos_of_neg (by norm_num [SEED_COST]) hq
      simp only
      linarith

/-- Witness for `c10_buy_seeds_no_validation`: buying -5 seeds with 200
coins succeeds and raises the balance; buying 3 seeds adds 3 seeds. -/
theorem c10_buy_seeds_no_validation_witness :
    ((buySeeds gsBob (-5)).1 = true ∧
      gsBob.player.coins < (buySeeds gsBob (-5)).2.player.coins) ∧
    (buySeeds gsBob 3).2.resources.seeds = gsBob.resources.seeds + 3 :=
  ⟨(c10_buy_seeds_no_validation gsBob (-5)).2.2 (by decide) (by decide),
   ((c10_buy_seeds_no_validation gsBob 3).2.1 (by rfl)).2.2⟩

/-- Witness for `c7_achievements_idempotent`: the returned `millionaire`
unlock does not collide with the already-held `first_tree`, and a second
evaluation after appending the result returns nothing. -/
theorem c7_achievements_idempotent_witness :
    ACHIEVEMENTS_first_tree.id ≠
      ({ ACHIEVEMENTS_millionaire with unlockedAt := (7 : ℤ) } :
        Achievement).id ∧
    checkAchievements
      { playerWithAch with achievements :=
          playerWithAch.achievements ++
            checkAchievements playerWithAch "plant_tree" none 7 }
      "plant_tree" none 8 = [] :=
  ⟨c7_achievements_idempotent.1 playerWithAch "plant_tree" none 7
      { ACHIEVEMENTS_millionaire with unlockedAt := 7 } (by decide)
      ACHIEVEMENTS_first_tree (by decide),
   c7_achievements_idempotent.2 playerWithAch "plant_tree" none 7 8⟩

end TamingTrees
